import Mathlib

/-!
# Verification of the flask_blogger CRUD core

Shallow embedding of `src/render251016/app.py`: the `Post` data model, the
scoped-session lifecycle (`get_session`), the startup seeding block, and the
five JSON API handlers (`api_list_posts`, `api_get_post`, `api_create_post`,
`api_update_post`, `api_delete_post`) together with the HTML list query.

The database is modelled as a list of committed `Post` rows in insertion
order.  SQLite assigns a fresh `id` of `max existing id + 1` (plain
`INTEGER PRIMARY KEY` autoincrement) and the `server_default=func.now()`
column assigns the current timestamp at insertion; both are made explicit.
Returning normally from a `with get_session()` block commits, so each
handler returns the response together with the committed database.
-/

set_option autoImplicit false

/-- A JSON value as Flask's `request.get_json` delivers it for a field of the
request body.  Objects and arrays never appear as field values in the claims
under study, so scalar values suffice; they are the values Python's `str()`
and truthiness act on in the handlers. -/
inductive Json where
  | null
  | bool (b : Bool)
  | num (n : Int)
  | str (s : String)
deriving DecidableEq, Repr

/-- Python `str()` on a JSON scalar: `str(None) = "None"`,
`str(True) = "True"`, `str(False) = "False"`, `str(0) = "0"`, identity on
strings. -/
def pyStr : Json → String
  | .null => "None"
  | .bool true => "True"
  | .bool false => "False"
  | .num n => toString n
  | .str s => s

/-- Python truthiness of a JSON scalar: `None`, `False`, `0` and `""` are
falsy. -/
def truthy : Json → Bool
  | .null => false
  | .bool b => b
  | .num n => n != 0
  | .str s => s != ""

/-- The whitespace characters Python's `str.strip()` removes:
space, tab, newline, carriage return, vertical tab, form feed. -/
def pySpace (ch : Char) : Bool :=
  ch == ' ' || ch == '\t' || ch == '\n' || ch == '\r' ||
  ch == Char.ofNat 11 || ch == Char.ofNat 12

/-- Python `str.strip()` with no argument: drop leading and trailing
whitespace. -/
def pyStrip (s : String) : String :=
  ⟨((s.data.dropWhile pySpace).reverse.dropWhile pySpace).reverse⟩

/-- A JSON object body (`request.get_json(silent=True) or {}`), as an
association list from field name to value; an absent or non-object body is
the empty list. -/
abbrev JsonObj := List (String × Json)

/-- Python exceptions that the embedded handler code can raise. -/
inductive PyExn where
  /-- `AttributeError`: `.strip()` called on a non-string truthy value. -/
  | attributeError
deriving DecidableEq, Repr

/-- `(data.get(k) or "").strip()` from `api_create_post`: an absent or falsy
value yields `""`; a truthy string is trimmed; a truthy non-string raises
`AttributeError` because it has no `.strip` method. -/
def stripField : Option Json → Except PyExn String
  | none => .ok ""
  | some j =>
    if truthy j then
      match j with
      | .str s => .ok (pyStrip s)
      | _ => .error .attributeError
    else .ok ""

/-- A row of the `posts` table (the `Post` ORM model): `id` is the integer
primary key, `created_at` the timestamp column (`none` when unset), with
timestamps abstracted as naturals. -/
structure Post where
  id : Nat
  title : String
  author : String
  content : String
  created_at : Option Nat
deriving DecidableEq, Repr

/-- The committed database state: the rows of the `posts` table in insertion
order. -/
abbrev DB := List Post

/-- The `id` SQLite assigns to the next inserted row: one more than the
largest existing id (1 on an empty table). -/
def nextId (db : DB) : Nat := db.foldr (fun p m => max p.id m) 0 + 1

/-- Well-formedness guaranteed by the primary-key constraint: all row ids
are distinct. -/
def WF (db : DB) : Prop := (db.map Post.id).Nodup

instance (db : DB) : Decidable (WF db) := List.nodupDecidable _

/-- `datetime.isoformat()`, abstracted: an injective rendering of the
timestamp as a string. -/
def isoformat (t : Nat) : String := toString t

/-- The JSON record shape produced by `post_to_dict`:
`{id, title, author, content, created_at}` with `created_at` rendered by
`isoformat` or `null`. -/
structure PostDict where
  id : Nat
  title : String
  author : String
  content : String
  created_at : Option String
deriving DecidableEq, Repr

/-- `post_to_dict` from the source: serialise a row, rendering `created_at`
with `isoformat()` when set and `null` otherwise. -/
def post_to_dict (p : Post) : PostDict :=
  { id := p.id, title := p.title, author := p.author, content := p.content,
    created_at := p.created_at.map isoformat }

/-- A JSON API response: a single record with its HTTP status, a list of
records (status 200), an error object `{"error": msg}` with its status, or
the delete confirmation `{"status":"deleted","id":id}` (status 200). -/
inductive ApiResult where
  | record (status : Nat) (body : PostDict)
  | records (body : List PostDict)
  | err (status : Nat) (msg : String)
  | deleted (idv : Nat)
deriving DecidableEq, Repr

/-- The HTTP status code of a response. -/
def ApiResult.status : ApiResult → Nat
  | .record s _ => s
  | .records _ => 200
  | .err s _ => s
  | .deleted _ => 200

/-- `ORDER BY id DESC`: insert a row into a list already sorted by
descending id. -/
def insertDesc (p : Post) : List Post → List Post
  | [] => [p]
  | q :: qs => if q.id ≤ p.id then p :: q :: qs else q :: insertDesc p qs

/-- `select(Post).order_by(Post.id.desc())`: the rows sorted by descending
id. -/
def sortByIdDesc : List Post → List Post
  | [] => []
  | p :: ps => insertDesc p (sortByIdDesc ps)

/-- `GET /api/posts` (`api_list_posts`): all rows ordered by id descending,
serialised with `post_to_dict`. -/
def api_list_posts (db : DB) : ApiResult :=
  .records ((sortByIdDesc db).map post_to_dict)

/-- `GET /` (`index`): the post list handed to the HTML template, same query
as the API list. -/
def index (db : DB) : List Post := sortByIdDesc db

/-- `GET /api/posts/<id>` (`api_get_post`): `s.get(Post, post_id)`, 404 when
absent. -/
def api_get_post (postId : Nat) (db : DB) : ApiResult :=
  match db.find? (fun p => p.id == postId) with
  | none => .err 404 "Not found"
  | some p => .record 200 (post_to_dict p)

/-- `POST /api/posts` (`api_create_post`): trim the three fields via
`(data.get(k) or "").strip()`, reject with 400 if any is blank, otherwise
insert a row (SQLite assigns `id = nextId db` at flush and
`created_at = now` via the server default) and answer 201 with the record.
The returned `DB` is the committed state. -/
def api_create_post (data : JsonObj) (db : DB) (now : Nat) :
    Except PyExn (ApiResult × DB) :=
  match stripField (data.lookup "title") with
  | .error e => .error e
  | .ok title =>
    match stripField (data.lookup "author") with
    | .error e => .error e
    | .ok author =>
      match stripField (data.lookup "content") with
      | .error e => .error e
      | .ok content =>
        if title = "" || author = "" || content = "" then
          .ok (.err 400 "title, author, content are required", db)
        else
          let p : Post := { id := nextId db, title := title, author := author,
                            content := content, created_at := some now }
          .ok (.record 201 (post_to_dict p), db ++ [p])

/-- Mutation `p.title = ...` on the session object. -/
def setTitle (p : Post) (s : String) : Post := { p with title := s }

/-- Mutation `p.author = ...` on the session object. -/
def setAuthor (p : Post) (s : String) : Post := { p with author := s }

/-- Mutation `p.content = ...` on the session object. -/
def setContent (p : Post) (s : String) : Post := { p with content := s }

/-- One `if k in data:` block of `api_update_post`: when field `k` is
present, `str(data[k]).strip()` blank returns the 400 error (carrying the
object as mutated so far, which the commit on normal exit still persists),
otherwise the trimmed value is assigned. -/
def updateStep (data : JsonObj) (k : String) (set : Post → String → Post)
    (errMsg : String) (p : Post) : Except (String × Post) Post :=
  match data.lookup k with
  | none => .ok p
  | some v =>
    if pyStrip (pyStr v) = "" then .error (errMsg, p)
    else .ok (set p (pyStrip (pyStr v)))

/-- Commit of a mutated session object: the row with the matching primary
key is updated in place. -/
def replacePost (db : DB) (postId : Nat) (p : Post) : DB :=
  db.map (fun q => if q.id == postId then p else q)

/-- `PUT /api/posts/<id>` (`api_update_post`): 404 when the id is absent;
otherwise the three `if k in data:` blocks run in order title, author,
content, each either assigning the trimmed `str(data[k]).strip()` or
returning 400 on a blank value.  Every `return` inside the
`with get_session()` block is a normal exit, so the commit persists the
mutations made before the return — also on the 400 path. -/
def api_update_post (data : JsonObj) (postId : Nat) (db : DB) :
    ApiResult × DB :=
  match db.find? (fun q => q.id == postId) with
  | none => (.err 404 "Not found", db)
  | some p =>
    match updateStep data "title" setTitle "title cannot be empty" p with
    | .error (msg, p1) => (.err 400 msg, replacePost db postId p1)
    | .ok p1 =>
      match updateStep data "author" setAuthor "author cannot be empty" p1 with
      | .error (msg, p2) => (.err 400 msg, replacePost db postId p2)
      | .ok p2 =>
        match updateStep data "content" setContent "content cannot be empty" p2 with
        | .error (msg, p3) => (.err 400 msg, replacePost db postId p3)
        | .ok p3 => (.record 200 (post_to_dict p3), replacePost db postId p3)

/-- `DELETE /api/posts/<id>` (`api_delete_post`): 404 when absent, otherwise
the found row is deleted and `{"status":"deleted","id":id}` returned. -/
def api_delete_post (postId : Nat) (db : DB) : ApiResult × DB :=
  match db.find? (fun p => p.id == postId) with
  | none => (.err 404 "Not found", db)
  | some _ => (.deleted postId, db.eraseP (fun p => p.id == postId))

/-- The two fixed sample rows of the seed block, with the ids SQLite assigns
them and `created_at` from the server default at commit time. -/
def seedRows (db : DB) (now : Nat) : List Post :=
  [ { id := nextId db, title := "Hello SQLAlchemy", author := "Alice",
      content := "This is your first DB-backed post.\nIt persists in SQLite.",
      created_at := some now },
    { id := nextId db + 1, title := "Edit & Delete", author := "Bob",
      content := "You can edit or delete this post from the UI below.",
      created_at := some now } ]

/-- The module-level seed block: at process startup, count the rows and, when
the count is zero, `add_all` the two fixed sample posts (committed on scope
exit). -/
def startupSeed (db : DB) (now : Nat) : DB :=
  if db.length = 0 then db ++ seedRows db now else db

/-- An exception flowing through the `get_session` scope: one raised by the
body of the `with` block, or by `session.commit()`, or by
`session.rollback()` itself. -/
inductive Exn where
  | body (code : Nat)
  | commitFail
  | rollbackFail
deriving DecidableEq, Repr

/-- An operation performed on the underlying session/connection. -/
inductive SessionOp where
  | commit
  | rollback
  | close
deriving DecidableEq, Repr

/-- The outcome of one `with get_session()` scope: the propagated exception
(if any), the committed database after the scope, and the session operations
attempted, in order. -/
structure ScopeResult where
  exn : Option Exn
  db : DB
  ops : List SessionOp
deriving DecidableEq, Repr

/-- `get_session` from the source: run the body on the current state;
`try`/`yield`/`commit`, `except` any exception → `rollback` and re-raise,
`finally` → `close`.  The body is a function from the database to either a
new database (its pending writes) or an exception; `commitOk` and
`rollbackOk` say whether `session.commit()` resp. `session.rollback()`
themselves succeed.  Commit is atomic: when it fails, or when a rollback
runs, the committed state is the original one. -/
def get_session (db : DB) (body : DB → Except Exn DB)
    (commitOk rollbackOk : Bool) : ScopeResult :=
  match body db with
  | .ok db1 =>
    if commitOk then
      { exn := none, db := db1, ops := [.commit, .close] }
    else if rollbackOk then
      { exn := some .commitFail, db := db, ops := [.commit, .rollback, .close] }
    else
      { exn := some .rollbackFail, db := db, ops := [.commit, .rollback, .close] }
  | .error e =>
    if rollbackOk then
      { exn := some e, db := db, ops := [.rollback, .close] }
    else
      { exn := some .rollbackFail, db := db, ops := [.rollback, .close] }

/-! ## Helper lemmas -/

theorem mem_lt_nextId {db : DB} {p : Post} (hp : p ∈ db) : p.id < nextId db := by
  induction db with
  | nil => cases hp
  | cons q qs ih =>
    rcases List.mem_cons.mp hp with h | h
    · subst h
      simp only [nextId, List.foldr_cons]
      omega
    · have := ih h
      simp only [nextId, List.foldr_cons] at *
      omega

theorem find?_nextId_none (db : DB) :
    db.find? (fun q => q.id == nextId db) = none := by
  rw [List.find?_eq_none]
  intro q hq
  simpa using Nat.ne_of_lt (mem_lt_nextId hq)

theorem find?_append_singleton (db : DB) (p : Post) (f : Post → Bool)
    (h : ∀ q ∈ db, f q = false) (hp : f p = true) :
    (db ++ [p]).find? f = some p := by
  induction db with
  | nil => simp [hp]
  | cons q qs ih =>
    have hq : f q = false := h q (List.mem_cons_self q qs)
    simp only [List.cons_append, List.find?_cons, hq]
    exact ih fun r hr => h r (List.mem_cons_of_mem q hr)

theorem insertDesc_perm (p : Post) (l : List Post) :
    List.Perm (insertDesc p l) (p :: l) := by
  induction l with
  | nil => simp [insertDesc]
  | cons q qs ih =>
    by_cases h : q.id ≤ p.id
    · simp [insertDesc, h]
    · simp only [insertDesc, h, if_false]
      exact (ih.cons q).trans (List.Perm.swap p q qs)

theorem sortByIdDesc_perm (l : List Post) :
    List.Perm (sortByIdDesc l) l := by
  induction l with
  | nil => simp [sortByIdDesc]
  | cons p ps ih =>
    exact (insertDesc_perm p (sortByIdDesc ps)).trans (ih.cons p)

theorem insertDesc_pairwise (p : Post) (l : List Post)
    (h : l.Pairwise (fun a b => b.id ≤ a.id)) :
    (insertDesc p l).Pairwise (fun a b => b.id ≤ a.id) := by
  induction l with
  | nil => simp [insertDesc]
  | cons q qs ih =>
    rcases List.pairwise_cons.mp h with ⟨hq, hqs⟩
    by_cases hle : q.id ≤ p.id
    · simp only [insertDesc, hle, if_true]
      refine List.pairwise_cons.mpr ⟨?_, h⟩
      intro b hb
      rcases List.mem_cons.mp hb with hb | hb
      · subst hb; exact hle
      · exact le_trans (hq b hb) hle
    · simp only [insertDesc, hle, if_false]
      refine List.pairwise_cons.mpr ⟨?_, ih hqs⟩
      intro b hb
      have hb2 := (insertDesc_perm p qs).mem_iff.mp hb
      rcases List.mem_cons.mp hb2 with hb2 | hb2
      · subst hb2; omega
      · exact hq b hb2

theorem sortByIdDesc_pairwise (l : List Post) :
    (sortByIdDesc l).Pairwise (fun a b => b.id ≤ a.id) := by
  induction l with
  | nil => simp [sortByIdDesc]
  | cons p ps ih => exact insertDesc_pairwise p (sortByIdDesc ps) ih

theorem find?_eraseP_self (db : DB) (i : Nat) (hwf : WF db) :
    (db.eraseP (fun p => p.id == i)).find? (fun p => p.id == i) = none := by
  induction db with
  | nil => simp
  | cons q qs ih =>
    have hwf2 : WF qs := (List.nodup_cons.mp hwf).2
    have hq : q.id ∉ qs.map Post.id := (List.nodup_cons.mp hwf).1
    by_cases hqi : q.id == i
    · rw [List.eraseP_cons_of_pos (p := fun r : Post => r.id == i) hqi, List.find?_eq_none]
      intro r hr hri
      apply hq
      have : r.id = i := by simpa using hri
      have hqid : q.id = i := by simpa using hqi
      rw [List.mem_map]
      exact ⟨r, hr, by omega⟩
    · rw [List.eraseP_cons_of_neg (p := fun r : Post => r.id == i) (by simpa using hqi),
        List.find?_cons_of_neg (p := fun r : Post => r.id == i) _ (by simpa using hqi)]
      exact ih hwf2

theorem replacePost_self {db : DB} {i : Nat} {p : Post} (hwf : WF db)
    (hf : db.find? (fun q => q.id == i) = some p) :
    replacePost db i p = db := by
  induction db with
  | nil => simp [replacePost]
  | cons q qs ih =>
    have hwf2 : WF qs := (List.nodup_cons.mp hwf).2
    have hq : q.id ∉ qs.map Post.id := (List.nodup_cons.mp hwf).1
    by_cases hqi : (q.id == i) = true
    · rw [List.find?_cons_of_pos (p := fun r : Post => r.id == i) qs hqi] at hf
      have hpq : q = p := by injection hf
      subst hpq
      show (if q.id == i then q else q) :: qs.map (fun r => if r.id == i then q else r)
          = q :: qs
      rw [ite_self]
      congr 1
      have hall : ∀ r ∈ qs, r.id ≠ i := by
        intro r hr hri
        apply hq
        have hqid : q.id = i := by simpa using hqi
        rw [List.mem_map]
        exact ⟨r, hr, by omega⟩
      calc qs.map (fun r => if r.id == i then q else r)
          = qs.map id := by
            apply List.map_congr_left
            intro r hr
            simp [hall r hr]
        _ = qs := List.map_id qs
    · rw [List.find?_cons_of_neg (p := fun r : Post => r.id == i) _ hqi] at hf
      have hne : (q.id == i) = false := by simpa using hqi
      show (if q.id == i then p else q) :: replacePost qs i p = q :: qs
      rw [hne, if_neg Bool.false_ne_true, ih hwf2 hf]

/-- Field `k` is present in the body with a value that is blank after
`str(...).strip()`. -/
def presentBlank (data : JsonObj) (k : String) : Bool :=
  match data.lookup k with
  | none => false
  | some v => pyStrip (pyStr v) == ""

/-- The value field `k` ends up with after a successful partial update:
the trimmed present value, or the old value when the field is absent. -/
def updField (data : JsonObj) (k : String) (old : String) : String :=
  match data.lookup k with
  | none => old
  | some v => pyStrip (pyStr v)

/-! ## Claims -/

/-- C5: for every database state, `GET /api/posts` and the HTML list page
return the post records ordered by id descending — the list handed out is a
permutation of the stored rows sorted by descending id, whatever
interleaving of insertions and deletions produced the state. -/
theorem C5_list_ordered_desc (db : DB) :
    api_list_posts db = .records ((index db).map post_to_dict) ∧
    List.Perm (index db) db ∧
    (index db).Pairwise (fun a b => b.id ≤ a.id) :=
  ⟨rfl, sortByIdDesc_perm db, sortByIdDesc_pairwise db⟩

/-- C8: startup seeding inserts exactly the two sample posts titled
"Hello SQLAlchemy" and "Edit & Delete" into an empty table, adds nothing to
a non-empty table, and a second startup over an already-seeded database adds
no rows. -/
theorem C8_seed_if_empty (now : Nat) :
    (startupSeed [] now).length = 2 ∧
    (startupSeed [] now).map Post.title = ["Hello SQLAlchemy", "Edit & Delete"] ∧
    (∀ db : DB, db ≠ [] → startupSeed db now = db) ∧
    (∀ (db : DB) (later : Nat),
      startupSeed (startupSeed db now) later = startupSeed db now) := by
  refine ⟨rfl, rfl, ?_, ?_⟩
  · intro db hdb
    simp [startupSeed, List.length_eq_zero, hdb]
  · intro db later
    by_cases h : db = []
    · subst h
      simp [startupSeed, seedRows]
    · simp [startupSeed, List.length_eq_zero, h]

/-- Witness for C8 at concrete inputs: a non-empty database is untouched
and an empty one receives the two titles. -/
theorem C8_seed_if_empty_witness :
    startupSeed [{ id := 1, title := "x", author := "y", content := "z",
                   created_at := none }] 5 =
      [{ id := 1, title := "x", author := "y", content := "z",
         created_at := none }] ∧
    (startupSeed [] 5).map Post.title = ["Hello SQLAlchemy", "Edit & Delete"] :=
  ⟨(C8_seed_if_empty 5).2.2.1 _ (List.cons_ne_nil _ _), (C8_seed_if_empty 5).2.1⟩

/-- C9: every `get_session` scope closes the session last on every exit
path; a normally completing body with a working commit commits its writes
with no rollback; an exception in the body leaves the committed database
unchanged, triggers a rollback, and (when rollback itself succeeds) the same
exception is re-raised. -/
theorem C9_session_scope (db : DB) (body : DB → Except Exn DB)
    (commitOk rollbackOk : Bool) :
    (get_session db body commitOk rollbackOk).ops.getLast? = some .close ∧
    (∀ db1, body db = .ok db1 → commitOk = true →
      get_session db body commitOk rollbackOk =
        { exn := none, db := db1, ops := [.commit, .close] }) ∧
    (∀ e, body db = .error e →
      (get_session db body commitOk rollbackOk).db = db ∧
      SessionOp.rollback ∈ (get_session db body commitOk rollbackOk).ops ∧
      (rollbackOk = true →
        (get_session db body commitOk rollbackOk).exn = some e)) := by
  unfold get_session
  cases hb : body db <;> cases commitOk <;> cases rollbackOk <;> simp

/-- Witness for C9: a committing scope over the empty database. -/
theorem C9_session_scope_witness :
    get_session [] (fun d => .ok d) true true =
      { exn := none, db := [], ops := [.commit, .close] } :=
  (C9_session_scope [] (fun d => .ok d) true true).2.1 [] rfl rfl

/-- C7: deleting an existing post answers 200 with
`{"status":"deleted","id":id}`, after which get-by-id answers 404 and the
post no longer appears in the list result; deleting an absent id answers
404. -/
theorem C7_delete (db : DB) (postId : Nat) (hwf : WF db) :
    (db.find? (fun q => q.id == postId) = none →
      api_delete_post postId db = (.err 404 "Not found", db)) ∧
    (∀ p, db.find? (fun q => q.id == postId) = some p →
      api_delete_post postId db =
        (.deleted postId, db.eraseP (fun q => q.id == postId)) ∧
      (api_delete_post postId db).1.status = 200 ∧
      api_get_post postId (api_delete_post postId db).2 = .err 404 "Not found" ∧
      ∃ L, api_list_posts (api_delete_post postId db).2 = .records L ∧
        ∀ r ∈ L, r.id ≠ postId) := by
  constructor
  · intro hnone
    simp [api_delete_post, hnone]
  · intro p hp
    have hdel : api_delete_post postId db =
        (.deleted postId, db.eraseP (fun q => q.id == postId)) := by
      simp [api_delete_post, hp]
    have hnone2 := find?_eraseP_self db postId hwf
    have hmem : ∀ q ∈ db.eraseP (fun r => r.id == postId), q.id ≠ postId := by
      intro q hq
      have := List.find?_eq_none.mp hnone2 q hq
      simpa using this
    refine ⟨hdel, by rw [hdel]; rfl, ?_, ?_⟩
    · rw [hdel]
      simp [api_get_post, hnone2]
    · refine ⟨(sortByIdDesc (db.eraseP (fun q => q.id == postId))).map post_to_dict,
        by rw [hdel]; rfl, ?_⟩
      intro r hr
      rcases List.mem_map.mp hr with ⟨q, hq, hqr⟩
      have hq2 : q ∈ db.eraseP (fun r => r.id == postId) :=
        (sortByIdDesc_perm _).mem_iff.mp hq
      have := hmem q hq2
      rw [← hqr]
      simpa [post_to_dict] using this

/-- Witness for C7: deleting post 1 from a one-row database. -/
theorem C7_delete_witness :
    api_delete_post 1 [{ id := 1, title := "T", author := "A", content := "C",
                         created_at := some 0 }] =
      (.deleted 1, []) ∧
    api_get_post 1 [] = .err 404 "Not found" := by
  have h := (C7_delete [{ id := 1, title := "T", author := "A", content := "C",
                          created_at := some 0 }] 1 (by decide)).2
      { id := 1, title := "T", author := "A", content := "C", created_at := some 0 }
      (by decide)
  refine ⟨?_, ?_⟩
  · exact h.1.trans (by decide)
  · have h2 := h.2.2.1
    rw [h.1] at h2
    simpa using h2

theorem trim_ne_empty_of_ne {t : String} (ht : pyStrip t ≠ "") : t ≠ "" :=
  fun h => ht (by rw [h]; rfl)

theorem stripField_str {t : String} (ht : t ≠ "") :
    stripField (some (Json.str t)) = .ok (pyStrip t) := by
  simp [stripField, truthy, ht]

theorem api_create_post_valid (db : DB) (now : Nat) (t a c : String)
    (ht : pyStrip t ≠ "") (ha : pyStrip a ≠ "") (hc : pyStrip c ≠ "") :
    api_create_post
        [("title", .str t), ("author", .str a), ("content", .str c)] db now =
      .ok (.record 201
        { id := nextId db, title := pyStrip t, author := pyStrip a,
          content := pyStrip c, created_at := some (isoformat now) },
        db ++ [{ id := nextId db, title := pyStrip t, author := pyStrip a,
                 content := pyStrip c, created_at := some now }]) := by
  have hT := stripField_str (trim_ne_empty_of_ne ht)
  have hA := stripField_str (trim_ne_empty_of_ne ha)
  have hC := stripField_str (trim_ne_empty_of_ne hc)
  simp [api_create_post, List.lookup, hT, hA, hC, ht, ha, hc, post_to_dict]

/-- C3: a `POST /api/posts` body in which each of the three fields is absent
or carries a strippable value (the `(data.get(k) or "").strip()` calls
succeed), and at least one of them comes out blank, is answered 400 with
`{"error":"title, author, content are required"}` and the committed database
is unchanged — no row is persisted. -/
theorem C3_create_rejects_blank (data : JsonObj) (db : DB) (now : Nat)
    (t a c : String)
    (ht : stripField (data.lookup "title") = .ok t)
    (ha : stripField (data.lookup "author") = .ok a)
    (hc : stripField (data.lookup "content") = .ok c)
    (hblank : t = "" ∨ a = "" ∨ c = "") :
    api_create_post data db now =
      .ok (.err 400 "title, author, content are required", db) := by
  simp only [api_create_post, ht, ha, hc]
  rcases hblank with h | h | h <;> simp [h]

/-- Witness for C3: a whitespace-only title together with a missing content
field is rejected and the empty database stays empty. -/
theorem C3_create_rejects_blank_witness :
    api_create_post [("title", .str "  "), ("author", .str "B")] [] 7 =
      .ok (.err 400 "title, author, content are required", []) :=
  C3_create_rejects_blank [("title", .str "  "), ("author", .str "B")] [] 7
    "" "B" "" rfl rfl rfl (Or.inl rfl)

/-- C4: a `POST /api/posts` with all three fields non-blank after trimming
answers 201 with a body carrying the assigned id, the trimmed field values
and `created_at` rendered as a (non-null) timestamp string, and appends
exactly that row. -/
theorem C4_create_response (db : DB) (now : Nat) (t a c : String)
    (ht : pyStrip t ≠ "") (ha : pyStrip a ≠ "") (hc : pyStrip c ≠ "") :
    ∃ d db2,
      api_create_post
          [("title", .str t), ("author", .str a), ("content", .str c)] db now =
        .ok (.record 201 d, db2) ∧
      d.id = nextId db ∧ d.title = pyStrip t ∧ d.author = pyStrip a ∧
      d.content = pyStrip c ∧ d.created_at = some (isoformat now) ∧
      d.created_at ≠ none ∧
      db2 = db ++ [{ id := nextId db, title := pyStrip t, author := pyStrip a,
                     content := pyStrip c, created_at := some now }] := by
  refine ⟨_, _, api_create_post_valid db now t a c ht ha hc,
    rfl, rfl, rfl, rfl, rfl, by simp, rfl⟩

/-- Witness for C4: the spec scenario — creating `{"A","B","C"}` on the
empty table yields id 1 and a rendered timestamp. -/
theorem C4_create_response_witness :
    ∃ d db2,
      api_create_post
          [("title", .str "A"), ("author", .str "B"), ("content", .str "C")]
          [] 5 =
        .ok (.record 201 d, db2) ∧
      d.id = 1 ∧ d.title = "A" ∧ d.author = "B" ∧ d.content = "C" ∧
      d.created_at = some (isoformat 5) := by
  rcases C4_create_response [] 5 "A" "B" "C" (by decide) (by decide) (by decide)
    with ⟨d, db2, h1, h2, h3, h4, h5, h6, _, _⟩
  exact ⟨d, db2, h1, h2, by simpa using h3, by simpa using h4,
    by simpa using h5, h6⟩

theorem api_get_post_append (db : DB) (p : Post) (hid : p.id = nextId db) :
    api_get_post (nextId db) (db ++ [p]) = .record 200 (post_to_dict p) := by
  have hfind : (db ++ [p]).find? (fun q => q.id == nextId db) = some p := by
    apply find?_append_singleton
    · intro q hq
      simpa using Nat.ne_of_lt (mem_lt_nextId hq)
    · simp [hid]
  simp only [api_get_post]
  rw [hfind]

/-- C2: creating a post from non-blank fields and then fetching it via
`GET /api/posts/{id}` with the returned id yields a record with the same
trimmed field values and a non-null `created_at`. -/
theorem C2_create_then_get (db : DB) (now : Nat) (t a c : String)
    (ht : pyStrip t ≠ "") (ha : pyStrip a ≠ "") (hc : pyStrip c ≠ "") :
    ∃ d db2,
      api_create_post
          [("title", .str t), ("author", .str a), ("content", .str c)] db now =
        .ok (.record 201 d, db2) ∧
      api_get_post d.id db2 = .record 200 d ∧
      d.title = pyStrip t ∧ d.author = pyStrip a ∧ d.content = pyStrip c ∧
      d.created_at ≠ none := by
  refine ⟨_, _, api_create_post_valid db now t a c ht ha hc, ?_, rfl, rfl, rfl,
    by simp⟩
  have h := api_get_post_append db
    { id := nextId db, title := pyStrip t, author := pyStrip a,
      content := pyStrip c, created_at := some now } rfl
  simpa [post_to_dict] using h

/-- Witness for C2: create-then-get round-trips `{" A ","B","C"}` on the
empty table. -/
theorem C2_create_then_get_witness :
    ∃ d db2,
      api_create_post
          [("title", .str " A "), ("author", .str "B"), ("content", .str "C")]
          [] 9 =
        .ok (.record 201 d, db2) ∧
      api_get_post d.id db2 = .record 200 d ∧
      d.title = pyStrip " A " ∧ d.author = pyStrip "B" ∧ d.content = pyStrip "C" ∧
      d.created_at ≠ none :=
  C2_create_then_get [] 9 " A " "B" "C" (by decide) (by decide) (by decide)

theorem updateStep_ok (data : JsonObj) (k : String) (set : Post → String → Post)
    (msgv : String) (p : Post) (h : presentBlank data k = false) :
    updateStep data k set msgv p =
      .ok (match data.lookup k with
           | none => p
           | some v => set p (pyStrip (pyStr v))) := by
  unfold updateStep presentBlank at *
  cases hl : data.lookup k with
  | none => simp
  | some v =>
    rw [hl] at h
    simp only [beq_eq_false_iff_ne] at h
    simp [h]

theorem updateStep_blank (data : JsonObj) (k : String) (set : Post → String → Post)
    (msgv : String) (p : Post) (h : presentBlank data k = true) :
    updateStep data k set msgv p = .error (msgv, p) := by
  unfold updateStep presentBlank at *
  cases hl : data.lookup k with
  | none => rw [hl] at h; cases h
  | some v =>
    rw [hl] at h
    simp only [beq_iff_eq] at h
    simp [h]

/-- C6: a `PUT /api/posts/{id}` on an existing post whose present fields are
all non-blank after trimming answers 200 and commits a row that carries the
trimmed present values, keeps every absent field, and keeps `id` and
`created_at` unchanged. -/
theorem C6_partial_update (data : JsonObj) (db : DB) (postId : Nat) (p : Post)
    (hf : db.find? (fun q => q.id == postId) = some p)
    (hT : presentBlank data "title" = false)
    (hA : presentBlank data "author" = false)
    (hC : presentBlank data "content" = false) :
    api_update_post data postId db =
      (.record 200 (post_to_dict
        { id := p.id,
          title := updField data "title" p.title,
          author := updField data "author" p.author,
          content := updField data "content" p.content,
          created_at := p.created_at }),
       replacePost db postId
        { id := p.id,
          title := updField data "title" p.title,
          author := updField data "author" p.author,
          content := updField data "content" p.content,
          created_at := p.created_at }) := by
  simp only [api_update_post, hf]
  simp only [updateStep_ok, hT, hA, hC]
  rcases hTl : data.lookup "title" with _ | v1 <;>
  rcases hAl : data.lookup "author" with _ | v2 <;>
  rcases hCl : data.lookup "content" with _ | v3 <;>
  simp [updField, hTl, hAl, hCl, setTitle, setAuthor, setContent]

/-- Witness for C6: updating only the author of a one-row database trims
the new value and leaves title, content, id and created_at unchanged. -/
theorem C6_partial_update_witness :
    api_update_post [("author", .str " Bob ")] 1
        [{ id := 1, title := "T", author := "A", content := "C",
           created_at := some 3 }] =
      (.record 200 { id := 1, title := "T", author := "Bob", content := "C",
                     created_at := some (isoformat 3) },
       [{ id := 1, title := "T", author := "Bob", content := "C",
          created_at := some 3 }]) := by
  have h := C6_partial_update [("author", .str " Bob ")]
      [{ id := 1, title := "T", author := "A", content := "C",
         created_at := some 3 }] 1
      { id := 1, title := "T", author := "A", content := "C",
        created_at := some 3 }
      rfl rfl rfl rfl
  exact h.trans (by decide)

/-- C1 fails on the code: `PUT /api/posts/1 {"title":"X","author":" "}` on an
existing post answers 400 (blank author), yet the commit on the early-return
path has already persisted the title mutation, so the stored row is NOT left
entirely unchanged. -/
theorem C1_counterexample :
    (api_update_post [("title", .str "X"), ("author", .str " ")] 1
        [{ id := 1, title := "T", author := "A", content := "C",
           created_at := some 0 }]).1.status = 400 ∧
    (api_update_post [("title", .str "X"), ("author", .str " ")] 1
        [{ id := 1, title := "T", author := "A", content := "C",
           created_at := some 0 }]).2 ≠
      [{ id := 1, title := "T", author := "A", content := "C",
         created_at := some 0 }] := by
  decide

/-- C1 amended: a `PUT /api/posts/{id}` on an existing post with some
present field blank after trimming answers 400 with the message naming the
first blank field in check order title, author, content; the committed row
keeps `id`, `created_at` and every field from the first blank one onward,
while present fields checked before it are committed with their trimmed
values; when no present field precedes the blank one — title blank, or e.g.
`PUT {"author":""}` with title absent — the row is entirely unchanged. -/
theorem C1_update_blank (data : JsonObj) (db : DB) (postId : Nat) (p : Post)
    (hwf : WF db)
    (hf : db.find? (fun q => q.id == postId) = some p) :
    (presentBlank data "title" = true →
      api_update_post data postId db = (.err 400 "title cannot be empty", db)) ∧
    (presentBlank data "title" = false → presentBlank data "author" = true →
      api_update_post data postId db =
        (.err 400 "author cannot be empty", replacePost db postId
          { id := p.id, title := updField data "title" p.title,
            author := p.author, content := p.content,
            created_at := p.created_at }) ∧
      (data.lookup "title" = none →
        api_update_post data postId db =
          (.err 400 "author cannot be empty", db))) ∧
    (presentBlank data "title" = false → presentBlank data "author" = false →
      presentBlank data "content" = true →
      api_update_post data postId db =
        (.err 400 "content cannot be empty", replacePost db postId
          { id := p.id, title := updField data "title" p.title,
            author := updField data "author" p.author,
            content := p.content, created_at := p.created_at }) ∧
      (data.lookup "title" = none → data.lookup "author" = none →
        api_update_post data postId db =
          (.err 400 "content cannot be empty", db))) := by
  have hrep : replacePost db postId p = db := replacePost_self hwf hf
  refine ⟨?_, ?_, ?_⟩
  · intro hbT
    simp only [api_update_post, hf, updateStep_blank _ _ _ _ _ hbT, hrep]
  · intro hbT2 hbA
    rcases hTl : data.lookup "title" with _ | v1
    · have heq : api_update_post data postId db =
          (.err 400 "author cannot be empty", replacePost db postId p) := by
        simp only [api_update_post, hf, updateStep_ok _ _ _ _ _ hbT2,
          updateStep_blank _ _ _ _ _ hbA, hTl]
      constructor
      · rw [heq]
        simp [updField, hTl]
      · intro _
        rw [heq, hrep]
    · constructor
      · simp only [api_update_post, hf, updateStep_ok _ _ _ _ _ hbT2,
          updateStep_blank _ _ _ _ _ hbA, hTl]
        simp [updField, hTl, setTitle]
      · intro h0
        cases h0
  · intro hbT2 hbA2 hbC
    rcases hTl : data.lookup "title" with _ | v1 <;>
      rcases hAl : data.lookup "author" with _ | v2
    · have heq : api_update_post data postId db =
          (.err 400 "content cannot be empty", replacePost db postId p) := by
        simp only [api_update_post, hf, updateStep_ok _ _ _ _ _ hbT2,
          updateStep_ok _ _ _ _ _ hbA2, updateStep_blank _ _ _ _ _ hbC, hTl, hAl]
      constructor
      · rw [heq]
        simp [updField, hTl, hAl]
      · intro _ _
        rw [heq, hrep]
    · constructor
      · simp only [api_update_post, hf, updateStep_ok _ _ _ _ _ hbT2,
          updateStep_ok _ _ _ _ _ hbA2, updateStep_blank _ _ _ _ _ hbC, hTl, hAl]
        simp [updField, hTl, hAl, setAuthor]
      · intro _ h0
        cases h0
    · constructor
      · simp only [api_update_post, hf, updateStep_ok _ _ _ _ _ hbT2,
          updateStep_ok _ _ _ _ _ hbA2, updateStep_blank _ _ _ _ _ hbC, hTl, hAl]
        simp [updField, hTl, hAl, setTitle]
      · intro h0
        cases h0
    · constructor
      · simp only [api_update_post, hf, updateStep_ok _ _ _ _ _ hbT2,
          updateStep_ok _ _ _ _ _ hbA2, updateStep_blank _ _ _ _ _ hbC, hTl, hAl]
        simp [updField, hTl, hAl, setTitle, setAuthor]
      · intro h0
        cases h0

/-- Witness for C1 amended: the counterexample request draws the
author-specific 400 with the non-blank title committed trimmed, and the
spec scenario `PUT {"author":""}` draws the same 400 with the row entirely
unchanged. -/
theorem C1_update_blank_witness :
    api_update_post [("title", .str "X"), ("author", .str " ")] 1
        [{ id := 1, title := "T", author := "A", content := "C",
           created_at := some 0 }] =
      (.err 400 "author cannot be empty",
       [{ id := 1, title := "X", author := "A", content := "C",
          created_at := some 0 }]) ∧
    api_update_post [("author", .str "")] 1
        [{ id := 1, title := "T", author := "A", content := "C",
           created_at := some 0 }] =
      (.err 400 "author cannot be empty",
       [{ id := 1, title := "T", author := "A", content := "C",
          created_at := some 0 }]) := by
  refine ⟨?_, ?_⟩
  · have h := (C1_update_blank [("title", .str "X"), ("author", .str " ")]
        [{ id := 1, title := "T", author := "A", content := "C",
           created_at := some 0 }] 1
        { id := 1, title := "T", author := "A", content := "C",
          created_at := some 0 }
        (by decide) rfl).2.1 (by decide) (by decide)
    exact h.1.trans (by decide)
  · have h := (C1_update_blank [("author", .str "")]
        [{ id := 1, title := "T", author := "A", content := "C",
           created_at := some 0 }] 1
        { id := 1, title := "T", author := "A", content := "C",
          created_at := some 0 }
        (by decide) rfl).2.1 (by decide) (by decide)
    exact h.2 rfl

/-- C10: `PUT` coerces a present non-string value with `str()` before the
blank check and storage — any value whose `str()` is non-blank is stored
trimmed, so `null` stores `"None"` and `0` stores `"0"` — whereas `POST`
runs each field through `data.get(k) or ""`, so a falsy `null`, `0` or
`false` counts as missing and draws the 400 required-fields error with
nothing persisted. -/
theorem C10_put_str_coercion (db : DB) (postId : Nat) (p : Post)
    (hf : db.find? (fun q => q.id == postId) = some p) :
    (∀ v : Json, pyStrip (pyStr v) ≠ "" →
      api_update_post [("title", v)] postId db =
        (.record 200 (post_to_dict (setTitle p (pyStrip (pyStr v)))),
         replacePost db postId (setTitle p (pyStrip (pyStr v))))) ∧
    (api_update_post [("title", Json.null)] postId db).1 =
      .record 200 (post_to_dict (setTitle p "None")) ∧
    (api_update_post [("title", Json.num 0)] postId db).1 =
      .record 200 (post_to_dict (setTitle p "0")) ∧
    (∀ (v : Json) (a c : String) (now : Nat), truthy v = false →
      api_create_post [("title", v), ("author", .str a), ("content", .str c)]
          db now =
        .ok (.err 400 "title, author, content are required", db)) := by
  have hgen : ∀ v : Json, pyStrip (pyStr v) ≠ "" →
      api_update_post [("title", v)] postId db =
        (.record 200 (post_to_dict (setTitle p (pyStrip (pyStr v)))),
         replacePost db postId (setTitle p (pyStrip (pyStr v)))) := by
    intro v hv
    simp [api_update_post, hf, updateStep, List.lookup, hv]
  refine ⟨hgen, ?_, ?_, ?_⟩
  · rw [hgen Json.null (by decide),
      show pyStrip (pyStr Json.null) = "None" by decide]
  · rw [hgen (Json.num 0) (by decide),
      show pyStrip (pyStr (Json.num 0)) = "0" by decide]
  · intro v a c now hv
    simp [api_create_post, List.lookup, stripField, hv]
    by_cases ha : a = "" <;> by_cases hc : c = "" <;> simp [ha, hc, truthy]

/-- Witness for C10: `{"title": null}` via PUT stores the string "None";
`{"title": 0}` via POST is rejected as missing. -/
theorem C10_put_str_coercion_witness :
    (api_update_post [("title", Json.null)] 1
        [{ id := 1, title := "T", author := "A", content := "C",
           created_at := some 0 }]).1 =
      .record 200 { id := 1, title := "None", author := "A", content := "C",
                    created_at := some (isoformat 0) } ∧
    api_create_post [("title", Json.num 0), ("author", .str "B"),
        ("content", .str "C")]
      [{ id := 1, title := "T", author := "A", content := "C",
         created_at := some 0 }] 5 =
      .ok (.err 400 "title, author, content are required",
        [{ id := 1, title := "T", author := "A", content := "C",
           created_at := some 0 }]) := by
  have h := C10_put_str_coercion
      [{ id := 1, title := "T", author := "A", content := "C",
         created_at := some 0 }] 1
      { id := 1, title := "T", author := "A", content := "C",
        created_at := some 0 } rfl
  exact ⟨h.2.1.trans (by decide), h.2.2.2 (Json.num 0) "B" "C" 5 rfl⟩
